import Mathlib

/-!
Verification of the data-access and caching layer of the poke-portal
front-end (src/poke-portal/src/pokemonData.tsx), as a shallow embedding.

Modelling conventions:
* JavaScript objects with ordered keys become association lists that keep
  insertion order; `Map.get`/`Map.set` become `mapGet`/`mapSet`.
* TypeScript `X | null` and optional fields become `Option X`; the `??`
  null-coalescing chain becomes `Option.orElse` (`<|>`).
* Timestamps (`Date.now()`) are `Int` values passed explicitly; `getCached`
  samples the clock twice in the source (once for the freshness test, once
  when storing), so the embedding takes two clock parameters.
* The network is an oracle: a fetch is a pure `Except JsError` value (for
  `getCached`) or a function from the request arguments to such a value
  (for the store operations).  A boolean / request log records which
  transport requests an operation issued.
* `JSON.stringify` is modelled for exactly the value shapes the source
  passes it: an object with a string `url` field and an optional `params`
  object whose values are numbers; `undefined` fields are omitted, as in
  JavaScript.  Key strings in actual use contain no characters that JSON
  escapes, so quoting is plain.
* `Array.prototype.sort` with comparator `(a, b) => a.slot - b.slot` is a
  stable ascending sort by slot; it is modelled by `List.insertionSort`
  (also stable) on the relation `slot ≤ slot`.
* The store (`PokemonProvider`) keeps its `useState` fields in a
  `StoreState` record; each operation is a state transformer.  React state
  updates inside one operation are batched/atomic as observed by the view
  layer, which the spec's concurrency section guarantees, so an operation
  is a single function from pre-state to post-state.
-/

/-- JavaScript thrown values as `extractErrorMessage` distinguishes them:
an `Error` instance (with a `message`), a plain string, or anything else. -/
inductive JsError where
  | jsError (message : String)
  | jsString (s : String)
  | otherValue
deriving DecidableEq, Repr

/-- Source `extractErrorMessage` (pokemonData.tsx:265-269). -/
def extractErrorMessage : JsError → String
  | .jsError m => m
  | .jsString s => s
  | .otherValue => "Something went wrong while talking to PokéAPI."

/-- A query-parameter object: keys with numeric values, in insertion order
(the source only ever passes numbers: limit and offset). -/
abbrev ParamObj := List (String × Nat)

/-- JSON quoting of a string that needs no escaping (all keys and endpoint
strings in actual use). -/
def jsonQuote (s : String) : String := "\"" ++ s ++ "\""

/-- `JSON.stringify` of a parameter object: keys in insertion order. -/
def jsonStringifyObj (ps : ParamObj) : String :=
  "\x7b" ++ String.intercalate "," (ps.map fun kv => jsonQuote kv.1 ++ ":" ++ toString kv.2) ++ "\x7d"

/-- Source `cacheKey` (pokemonData.tsx:27-28):
`JSON.stringify(\x7b url, params \x7d)`; an `undefined` `params` field is
omitted by `JSON.stringify`. -/
def cacheKey (url : String) (params : Option ParamObj) : String :=
  "\x7b\"url\":" ++ jsonQuote url ++
    (match params with
     | none => ""
     | some ps => ",\"params\":" ++ jsonStringifyObj ps) ++
    "\x7d"

/-- Source `CacheEntry<T>` (pokemonData.tsx:19-22). -/
structure CacheEntry (T : Type) where
  timestamp : Int
  data : T
deriving DecidableEq, Repr

/-- The module-level `cache` Map, as an insertion-ordered association list. -/
abbrev CacheMap (T : Type) := List (String × CacheEntry T)

/-- `Map.get` / object lookup on an insertion-ordered association list. -/
def mapGet {κ α : Type} [DecidableEq κ] (m : List (κ × α)) (k : κ) : Option α :=
  (m.find? fun kv => kv.1 = k).map fun kv => kv.2

/-- `Map.set` / object-spread update: replaces the value at an existing key
in place, otherwise appends the new binding at the end. -/
def mapSet {κ α : Type} [DecidableEq κ] (m : List (κ × α)) (k : κ) (v : α) : List (κ × α) :=
  match m with
  | [] => [(k, v)]
  | kv :: rest => if kv.1 = k then (k, v) :: rest else kv :: mapSet rest k v

/-- Source `DEFAULT_TTL` (pokemonData.tsx:25): five minutes in ms. -/
def DEFAULT_TTL : Int := 1000 * 60 * 5

/-- Source `getCached` (pokemonData.tsx:30-45).  Returns the result, the
cache after the call, and whether a network request was performed.
`now` is the `Date.now()` of the freshness test, `now2` the `Date.now()`
used for the stored timestamp; `net` is the network oracle for this call. -/
def getCached {T : Type} (cache : CacheMap T) (url : String) (params : Option ParamObj)
    (ttl : Int) (now now2 : Int) (net : Except JsError T) :
    Except JsError T × CacheMap T × Bool :=
  let key := cacheKey url params
  match mapGet cache key with
  | some cached =>
    if now - cached.timestamp < ttl then
      (.ok cached.data, cache, false)
    else
      match net with
      | .ok d => (.ok d, mapSet cache key ⟨now2, d⟩, true)
      | .error e => (.error e, cache, true)
  | none =>
    match net with
    | .ok d => (.ok d, mapSet cache key ⟨now2, d⟩, true)
    | .error e => (.error e, cache, true)

/-- Source `NamedAPIResource` (pokemonData.tsx:47-50). -/
structure NamedAPIResource where
  name : String
  url : String
deriving DecidableEq, Repr

/-- The `dream_world` sprite group (pokemonData.tsx:53-55). -/
structure DreamWorldSprites where
  front_default : Option String
deriving DecidableEq, Repr

/-- The `home` sprite group (pokemonData.tsx:56-59). -/
structure HomeSprites where
  front_default : Option String
  front_shiny : Option String
deriving DecidableEq, Repr

/-- The `official-artwork` sprite group (pokemonData.tsx:60-62). -/
structure OfficialArtworkSprites where
  front_default : Option String
deriving DecidableEq, Repr

/-- Source `PokemonSpritesOther` (pokemonData.tsx:52-64); the TS field
`official-artwork` is spelled `official_artwork` here. -/
structure PokemonSpritesOther where
  dream_world : Option DreamWorldSprites
  home : Option HomeSprites
  official_artwork : Option OfficialArtworkSprites
deriving DecidableEq, Repr

/-- Source `PokemonSprites` (pokemonData.tsx:66-70). -/
structure PokemonSprites where
  front_default : Option String
  front_shiny : Option String
  other : Option PokemonSpritesOther
deriving DecidableEq, Repr

/-- Source `PokemonTypeSlot` (pokemonData.tsx:72-75). -/
structure PokemonTypeSlot where
  slot : Nat
  type : NamedAPIResource
deriving DecidableEq, Repr

/-- Source `PokemonAbilitySlot` (pokemonData.tsx:77-81). -/
structure PokemonAbilitySlot where
  ability : NamedAPIResource
  is_hidden : Bool
  slot : Nat
deriving DecidableEq, Repr

/-- Source `PokemonStatSlot` (pokemonData.tsx:83-87). -/
structure PokemonStatSlot where
  base_stat : Nat
  effort : Nat
  stat : NamedAPIResource
deriving DecidableEq, Repr

/-- Source `PokemonMoveSlot` version-group detail (pokemonData.tsx:91-95). -/
structure MoveVersionDetail where
  level_learned_at : Nat
  move_learn_method : NamedAPIResource
  version_group : NamedAPIResource
deriving DecidableEq, Repr

/-- Source `PokemonMoveSlot` (pokemonData.tsx:89-96). -/
structure PokemonMoveSlot where
  move : NamedAPIResource
  version_group_details : List MoveVersionDetail
deriving DecidableEq, Repr

/-- Source `Pokemon` (pokemonData.tsx:98-111). -/
structure Pokemon where
  id : Nat
  name : String
  height : Nat
  weight : Nat
  order : Nat
  base_experience : Nat
  sprites : PokemonSprites
  types : List PokemonTypeSlot
  abilities : List PokemonAbilitySlot
  stats : List PokemonStatSlot
  moves : List PokemonMoveSlot
  species : NamedAPIResource
deriving DecidableEq, Repr

/-- Source `PokemonSpeciesFlavorText` (pokemonData.tsx:113-117). -/
structure PokemonSpeciesFlavorText where
  flavor_text : String
  language : NamedAPIResource
  version : NamedAPIResource
deriving DecidableEq, Repr

/-- Source `PokemonSpeciesGenus` (pokemonData.tsx:119-122). -/
structure PokemonSpeciesGenus where
  genus : String
  language : NamedAPIResource
deriving DecidableEq, Repr

/-- The `evolution_chain` reference (pokemonData.tsx:133-135). -/
structure EvolutionChainRef where
  url : String
deriving DecidableEq, Repr

/-- Source `PokemonSpecies` (pokemonData.tsx:124-136). -/
structure PokemonSpecies where
  id : Nat
  name : String
  color : Option NamedAPIResource
  habitat : Option NamedAPIResource
  genera : Option (List PokemonSpeciesGenus)
  flavor_text_entries : List PokemonSpeciesFlavorText
  is_legendary : Bool
  is_mythical : Bool
  evolution_chain : Option EvolutionChainRef
deriving DecidableEq, Repr

/-- One entry of the paginated index results (pokemonData.tsx:142-145). -/
structure ListResultEntry where
  name : String
  url : String
deriving DecidableEq, Repr

/-- Source `PokemonListResponse` (pokemonData.tsx:138-146). -/
structure PokemonListResponse where
  count : Nat
  next : Option String
  previous : Option String
  results : List ListResultEntry
deriving DecidableEq, Repr

/-- Source `PokemonSummary` (pokemonData.tsx:148-153). -/
structure PokemonSummary where
  id : Nat
  name : String
  sprite : Option String
  types : List String
deriving DecidableEq, Repr

/-- One entry of a detail's ability list (pokemonData.tsx:159-162). -/
structure AbilityView where
  name : String
  isHidden : Bool
deriving DecidableEq, Repr

/-- One entry of a detail's stat list (pokemonData.tsx:163-166). -/
structure StatView where
  name : String
  value : Nat
deriving DecidableEq, Repr

/-- Source `PokemonDetail extends PokemonSummary` (pokemonData.tsx:155-172). -/
structure PokemonDetail extends PokemonSummary where
  height : Nat
  weight : Nat
  baseExperience : Nat
  abilities : List AbilityView
  stats : List StatView
  flavorText : Option String
  habitat : Option String
  genus : Option String
  isLegendary : Bool
  isMythical : Bool
deriving DecidableEq, Repr

/-- Source `extractSprite` (pokemonData.tsx:174-179): the `??` chain over
the optional sprite groups, first non-null URL wins. -/
def extractSprite (pokemon : Pokemon) : Option String :=
  ((pokemon.sprites.other.bind fun o => o.official_artwork).bind fun a => a.front_default) <|>
  ((pokemon.sprites.other.bind fun o => o.home).bind fun h => h.front_default) <|>
  ((pokemon.sprites.other.bind fun o => o.dream_world).bind fun d => d.front_default) <|>
  pokemon.sprites.front_default

/-- The comparator `(a, b) => a.slot - b.slot` on type-slots, as the
ascending order it induces. -/
def typeSlotLE (a b : PokemonTypeSlot) : Prop := a.slot ≤ b.slot

instance : DecidableRel typeSlotLE := fun a b => Nat.decLe a.slot b.slot

/-- The comparator `(a, b) => a.slot - b.slot` on ability-slots. -/
def abilitySlotLE (a b : PokemonAbilitySlot) : Prop := a.slot ≤ b.slot

instance : DecidableRel abilitySlotLE := fun a b => Nat.decLe a.slot b.slot

/-- Source `mapTypes` (pokemonData.tsx:181-182): stable ascending sort by
slot (JavaScript `sort` is stable; modelled by stable `insertionSort`),
then project type names. -/
def mapTypes (types : List PokemonTypeSlot) : List String :=
  (List.insertionSort typeSlotLE types).map fun entry => entry.type.name

/-- Source `mapAbilities` (pokemonData.tsx:184-187). -/
def mapAbilities (abilities : List PokemonAbilitySlot) : List AbilityView :=
  (List.insertionSort abilitySlotLE abilities).map fun entry =>
    ⟨entry.ability.name, entry.is_hidden⟩

/-- Source `mapStats` (pokemonData.tsx:189-190): source order, no sort. -/
def mapStats (stats : List PokemonStatSlot) : List StatView :=
  stats.map fun entry => ⟨entry.stat.name, entry.base_stat⟩

/-- The per-character action of the regex replace `/\f|\n|\r/g` with a
single space. -/
def sanitizeChar (c : Char) : Char :=
  if c = '\x0c' ∨ c = '\n' ∨ c = '\x0d' then ' ' else c

/-- Source `sanitizeFlavorText` (pokemonData.tsx:192): the global regex
replace substitutes each matched character, i.e. maps `sanitizeChar` over
the characters of the string; `text?.replace` passes `undefined` through. -/
def sanitizeFlavorText (text : Option String) : Option String :=
  text.map fun t => ⟨t.data.map sanitizeChar⟩

/-- Source `extractEnglishFlavor` (pokemonData.tsx:194-197). -/
def extractEnglishFlavor (species : PokemonSpecies) : Option String :=
  sanitizeFlavorText
    ((species.flavor_text_entries.find? fun entry => entry.language.name = "en").map
      fun entry => entry.flavor_text)

/-- Source `extractGenus` (pokemonData.tsx:199-200). -/
def extractGenus (species : PokemonSpecies) : Option String :=
  (species.genera.bind fun gs => gs.find? fun entry => entry.language.name = "en").map
    fun entry => entry.genus

/-- Source `mapToSummary` (pokemonData.tsx:202-207). -/
def mapToSummary (pokemon : Pokemon) : PokemonSummary :=
  { id := pokemon.id
    name := pokemon.name
    sprite := extractSprite pokemon
    types := mapTypes pokemon.types }

/-- Source `mapToDetail` (pokemonData.tsx:209-221): spread of
`mapToSummary` plus detail fields. -/
def mapToDetail (pokemon : Pokemon) (species : PokemonSpecies) : PokemonDetail :=
  { toPokemonSummary := mapToSummary pokemon
    height := pokemon.height
    weight := pokemon.weight
    baseExperience := pokemon.base_experience
    abilities := mapAbilities pokemon.abilities
    stats := mapStats pokemon.stats
    flavorText := extractEnglishFlavor species
    habitat := species.habitat.map fun h => h.name
    genus := extractGenus species
    isLegendary := species.is_legendary
    isMythical := species.is_mythical }

/-- Source `ListParams` (pokemonData.tsx:245-248). -/
structure ListParams where
  limit : Nat
  offset : Nat
deriving DecidableEq, Repr

/-- The `useState` fields of `PokemonProvider` (pokemonData.tsx:272-278);
the id-indexed objects are insertion-ordered association lists. -/
structure StoreState where
  list : List PokemonSummary
  totalCount : Nat
  isListLoading : Bool
  listError : Option String
  listParams : ListParams
  summariesById : List (Nat × PokemonSummary)
  detailsById : List (Nat × PokemonDetail)
deriving DecidableEq, Repr

/-- The initial store state from the `useState` initializers
(pokemonData.tsx:272-278). -/
def initialStoreState : StoreState :=
  { list := []
    totalCount := 0
    isListLoading := false
    listError := none
    listParams := ⟨1000, 0⟩
    summariesById := []
    detailsById := [] }

/-- One transport request issued by a store operation: the paginated index
fetch or a per-item fetch by name. -/
inductive ApiRequest where
  | indexReq (limit offset : Nat)
  | itemReq (name : String)
deriving DecidableEq, Repr

/-- The outcome of a `loadList` body: the index response and the mapped
summaries, or the first failure — `Promise.all` rejects the whole load if
any per-item fetch fails (pokemonData.tsx:290-293). -/
def loadListOutcome (fetchList : Nat → Nat → Except JsError PokemonListResponse)
    (fetchItem : String → Except JsError Pokemon) (limit offset : Nat) :
    Except JsError (PokemonListResponse × List PokemonSummary) := do
  let response ← fetchList limit offset
  let summaries ← response.results.mapM fun result =>
    (fetchItem result.name).map mapToSummary
  pure (response, summaries)

/-- The result of one `loadList` call: the post-state and the transport
requests the call issued (the index request, then — `Promise.all` issues
them all in parallel — one item request per index result). -/
structure LoadListResult where
  state : StoreState
  requests : List ApiRequest
deriving DecidableEq, Repr

/-- Source `loadList` (pokemonData.tsx:280-309): guard on a non-empty
list; otherwise set loading, clear the error, record the params, run the
fetches, commit list/count/summary-index on success or record the message
on failure, and clear the loading flag in the `finally`. -/
def loadList (st : StoreState) (limit offset : Nat)
    (fetchList : Nat → Nat → Except JsError PokemonListResponse)
    (fetchItem : String → Except JsError Pokemon) : LoadListResult :=
  if st.list.length > 0 then
    ⟨st, []⟩
  else
    let st1 := { st with isListLoading := true, listError := none,
                         listParams := ⟨limit, offset⟩ }
    let requests := .indexReq limit offset ::
      (match fetchList limit offset with
       | .ok response => response.results.map fun result => .itemReq result.name
       | .error _ => [])
    match loadListOutcome fetchList fetchItem limit offset with
    | .ok (response, summaries) =>
      ⟨{ st1 with
          list := summaries
          totalCount := response.count
          summariesById := summaries.foldl (fun m s => mapSet m s.id s) st1.summariesById
          isListLoading := false },
        requests⟩
    | .error e =>
      ⟨{ st1 with listError := some (extractErrorMessage e), isListLoading := false },
        requests⟩

/-- `loadList()` with both arguments omitted: the TypeScript defaults are
`limit = 1000, offset = 0` (pokemonData.tsx:280). -/
def loadListNoArgs (st : StoreState)
    (fetchList : Nat → Nat → Except JsError PokemonListResponse)
    (fetchItem : String → Except JsError Pokemon) : LoadListResult :=
  loadList st 1000 0 fetchList fetchItem

/-- Source `getSummary` (pokemonData.tsx:311-315): fetch, map, merge into
the summary index; errors propagate. -/
def getSummary (st : StoreState) (fetchItem : Except JsError Pokemon) :
    Except JsError (PokemonSummary × StoreState) :=
  match fetchItem with
  | .error e => .error e
  | .ok pokemon =>
    let summary := mapToSummary pokemon
    .ok (summary, { st with summariesById := mapSet st.summariesById summary.id summary })

/-- Source `getDetail` (pokemonData.tsx:317-322): `fetchPokemonDetail`
fetches item and species via `Promise.all` (either failure rejects the
whole call, pokemonData.tsx:237-243), maps to a detail, and merges it into
both the detail index and — as its summary projection, since
`PokemonDetail extends PokemonSummary` — the summary index. -/
def getDetail (st : StoreState) (fetchItem : Except JsError Pokemon)
    (fetchSpecies : Except JsError PokemonSpecies) :
    Except JsError (PokemonDetail × StoreState) :=
  match fetchItem, fetchSpecies with
  | .error e, _ => .error e
  | .ok _, .error e => .error e
  | .ok pokemon, .ok species =>
    let detail := mapToDetail pokemon species
    .ok (detail,
      { st with
          detailsById := mapSet st.detailsById detail.id detail
          summariesById := mapSet st.summariesById detail.id detail.toPokemonSummary })

theorem mapGet_mapSet_self {κ α : Type} [DecidableEq κ] (m : List (κ × α)) (k : κ) (v : α) :
    mapGet (mapSet m k v) k = some v := by
  induction m with
  | nil => simp [mapGet, mapSet, List.find?]
  | cons kv rest ih =>
    by_cases h : kv.1 = k
    · simp [mapGet, mapSet, h, List.find?]
    · simpa [mapGet, mapSet, h, List.find?] using ih

theorem getCached_hit_lemma {T : Type} (cache : CacheMap T) (url : String)
    (ps : Option ParamObj) (ttl now now2 : Int) (net : Except JsError T) (c : CacheEntry T)
    (hget : mapGet cache (cacheKey url ps) = some c) (hfresh : now - c.timestamp < ttl) :
    getCached cache url ps ttl now now2 net = (.ok c.data, cache, false) := by
  simp only [getCached, hget, if_pos hfresh]

theorem getCached_miss_lemma {T : Type} (cache : CacheMap T) (url : String)
    (ps : Option ParamObj) (ttl now now2 : Int) (net : Except JsError T)
    (hstale : ∀ c, mapGet cache (cacheKey url ps) = some c → ¬ (now - c.timestamp < ttl)) :
    getCached cache url ps ttl now now2 net =
      match net with
      | .ok d => (.ok d, mapSet cache (cacheKey url ps) ⟨now2, d⟩, true)
      | .error e => (.error e, cache, true) := by
  simp only [getCached]
  cases hc : mapGet cache (cacheKey url ps) with
  | none => rfl
  | some c => simp [hstale c hc]

/-- C1: the claim that `cacheKey` is insensitive to parameter insertion
order is false: the two parameter objects below hold exactly the same
key/value pairs (they are permutations of one another), yet `cacheKey`
produces different key strings, so the two lookups address different
cache entries. -/
theorem cacheKey_order_counterexample :
    [("limit", 1000), ("offset", 0)].Perm [(("offset" : String), (0 : Nat)), ("limit", 1000)] ∧
    cacheKey "/pokemon" (some [("limit", 1000), ("offset", 0)]) ≠
      cacheKey "/pokemon" (some [("offset", 0), ("limit", 1000)]) :=
  ⟨List.Perm.swap _ _ _, by decide⟩

/-- C1 (amended): for every endpoint and every two parameter objects
supplying the same key/value pairs in the same insertion order, `cacheKey`
produces the identical canonical key string; but parameter objects with
the same pairs in a different insertion order can produce different key
strings, so only insertion-order-equal parameter objects are guaranteed to
address the same cache entry. -/
theorem cacheKey_insertion_order_sensitive :
    (∀ (url : String) (ps1 ps2 : ParamObj), ps1 = ps2 →
      cacheKey url (some ps1) = cacheKey url (some ps2)) ∧
    (∃ (url : String) (ps1 ps2 : ParamObj), ps1.Perm ps2 ∧
      cacheKey url (some ps1) ≠ cacheKey url (some ps2)) := by
  refine ⟨fun url ps1 ps2 h => by rw [h], ?_⟩
  exact ⟨"/pokemon", [("limit", 1000), ("offset", 0)], [("offset", 0), ("limit", 1000)],
    List.Perm.swap _ _ _, by decide⟩

/-- C1 witness: the amended theorem applied at a concrete endpoint and
parameter object. -/
theorem cacheKey_insertion_order_sensitive_witness :
    cacheKey "/pokemon" (some [("limit", 20), ("offset", 40)]) =
      cacheKey "/pokemon" (some [("limit", 20), ("offset", 40)]) :=
  cacheKey_insertion_order_sensitive.1 "/pokemon" [("limit", 20), ("offset", 40)]
    [("limit", 20), ("offset", 40)] rfl

/-- C3: TTL behaviour of `getCached`.  (1) If the cache holds an entry
under the key whose timestamp satisfies `now - timestamp < ttl`, the call
returns that entry's payload unchanged, performs no network call, and
leaves the cache unchanged.  (2) Otherwise it performs exactly one network
call, stores the payload with the store-time clock sample under the key,
and returns the payload.  (3) Hence a second identical call within the TTL
of the stored entry returns the same payload with no network call and an
unchanged cache, whatever the network oracle would answer. -/
theorem getCached_ttl_behavior :
    (∀ (T : Type) (cache : CacheMap T) (url : String) (ps : Option ParamObj)
       (ttl now now2 : Int) (net : Except JsError T) (c : CacheEntry T),
       mapGet cache (cacheKey url ps) = some c → now - c.timestamp < ttl →
       getCached cache url ps ttl now now2 net = (.ok c.data, cache, false)) ∧
    (∀ (T : Type) (cache : CacheMap T) (url : String) (ps : Option ParamObj)
       (ttl now now2 : Int) (d : T),
       (∀ c, mapGet cache (cacheKey url ps) = some c → ¬ (now - c.timestamp < ttl)) →
       getCached cache url ps ttl now now2 (.ok d) =
         (.ok d, mapSet cache (cacheKey url ps) ⟨now2, d⟩, true)) ∧
    (∀ (T : Type) (cache : CacheMap T) (url : String) (ps : Option ParamObj)
       (ttl now now2 now3 now4 : Int) (d : T) (net2 : Except JsError T),
       (∀ c, mapGet cache (cacheKey url ps) = some c → ¬ (now - c.timestamp < ttl)) →
       now3 - now2 < ttl →
       getCached (getCached cache url ps ttl now now2 (.ok d)).2.1 url ps ttl now3 now4 net2 =
         (.ok d, (getCached cache url ps ttl now now2 (.ok d)).2.1, false)) := by
  refine ⟨fun T cache url ps ttl now now2 net c hget hfresh =>
      getCached_hit_lemma cache url ps ttl now now2 net c hget hfresh,
    fun T cache url ps ttl now now2 d hstale =>
      getCached_miss_lemma cache url ps ttl now now2 (.ok d) hstale,
    fun T cache url ps ttl now now2 now3 now4 d net2 hstale hfresh2 => ?_⟩
  have h1 : getCached cache url ps ttl now now2 (.ok d) =
      (.ok d, mapSet cache (cacheKey url ps) ⟨now2, d⟩, true) :=
    getCached_miss_lemma cache url ps ttl now now2 (.ok d) hstale
  rw [h1]
  exact getCached_hit_lemma _ url ps ttl now3 now4 net2 ⟨now2, d⟩
    (mapGet_mapSet_self cache (cacheKey url ps) ⟨now2, d⟩) hfresh2

/-- C3 witness: a fresh hit returns the cached payload with no network
call even when the oracle would fail, and a stale entry is refetched and
overwritten. -/
theorem getCached_ttl_behavior_witness :
    getCached [(cacheKey "/pokemon" none, (⟨40, 7⟩ : CacheEntry Nat))] "/pokemon" none
        DEFAULT_TTL 100 100 (.error .otherValue) =
      (.ok 7, [(cacheKey "/pokemon" none, (⟨40, 7⟩ : CacheEntry Nat))], false) ∧
    getCached [(cacheKey "/pokemon" none, (⟨40, 7⟩ : CacheEntry Nat))] "/pokemon" none
        DEFAULT_TTL 999999 999999 (.ok 8) =
      (.ok 8, [(cacheKey "/pokemon" none, (⟨999999, 8⟩ : CacheEntry Nat))], true) :=
  ⟨getCached_ttl_behavior.1 Nat _ "/pokemon" none DEFAULT_TTL 100 100 _ ⟨40, 7⟩
      (by decide) (by decide),
    by
      have h := getCached_ttl_behavior.2.1 Nat
        [(cacheKey "/pokemon" none, (⟨40, 7⟩ : CacheEntry Nat))] "/pokemon" none
        DEFAULT_TTL 999999 999999 8 (by decide)
      rw [h]; rfl⟩

/-- C7: when `getCached` actually performs the network request (no fresh
cache entry exists for the key) and that request fails, the error
propagates unchanged to the caller and the cache table is left exactly as
it was — no entry is added or overwritten for the key. -/
theorem getCached_failure_propagates :
    ∀ (T : Type) (cache : CacheMap T) (url : String) (ps : Option ParamObj)
      (ttl now now2 : Int) (e : JsError),
      (∀ c, mapGet cache (cacheKey url ps) = some c → ¬ (now - c.timestamp < ttl)) →
      getCached cache url ps ttl now now2 (.error e) = (.error e, cache, true) :=
  fun _T cache url ps ttl now now2 e hstale =>
    getCached_miss_lemma cache url ps ttl now now2 (.error e) hstale

/-- C7 witness: a failing fetch on an empty cache returns the error and
leaves the cache empty. -/
theorem getCached_failure_propagates_witness :
    getCached ([] : CacheMap Nat) "/pokemon/25" none DEFAULT_TTL 5 5
        (.error (.jsError "Network Error")) =
      (.error (.jsError "Network Error"), ([] : CacheMap Nat), true) :=
  getCached_failure_propagates Nat [] "/pokemon/25" none DEFAULT_TTL 5 5
    (.jsError "Network Error") (by decide)

/-- Precedence level 1 of the sprite fallback: the official-artwork URL. -/
def candOfficial (p : Pokemon) : Option String :=
  (p.sprites.other.bind fun o => o.official_artwork).bind fun a => a.front_default

/-- Precedence level 2 of the sprite fallback: the home default URL. -/
def candHome (p : Pokemon) : Option String :=
  (p.sprites.other.bind fun o => o.home).bind fun h => h.front_default

/-- Precedence level 3 of the sprite fallback: the dream-world URL. -/
def candDream (p : Pokemon) : Option String :=
  (p.sprites.other.bind fun o => o.dream_world).bind fun d => d.front_default

/-- Precedence level 4 of the sprite fallback: the item's own default. -/
def candDefault (p : Pokemon) : Option String :=
  p.sprites.front_default

/-- The first present value of a candidate list, per the spec's wording
of the sprite precedence. -/
def firstPresent : List (Option String) → Option String
  | [] => none
  | some s :: _ => some s
  | none :: rest => firstPresent rest

theorem extractSprite_eq_cands (p : Pokemon) :
    extractSprite p = (candOfficial p <|> candHome p <|> candDream p <|> candDefault p) := rfl

/-- C6: `extractSprite` returns the first present URL in the exact
precedence order official-artwork, home, dream-world, own default, and
absent if none is present; in particular with all four present it returns
the official-artwork URL, with only home and default present it returns
the home URL, and with none present it returns absent. -/
theorem extractSprite_precedence :
    (∀ p : Pokemon, extractSprite p =
        firstPresent [candOfficial p, candHome p, candDream p, candDefault p]) ∧
    (∀ (p : Pokemon) (u1 u2 u3 u4 : String),
        candOfficial p = some u1 → candHome p = some u2 → candDream p = some u3 →
        candDefault p = some u4 → extractSprite p = some u1) ∧
    (∀ (p : Pokemon) (u2 u4 : String),
        candOfficial p = none → candHome p = some u2 → candDream p = none →
        candDefault p = some u4 → extractSprite p = some u2) ∧
    (∀ p : Pokemon,
        candOfficial p = none → candHome p = none → candDream p = none →
        candDefault p = none → extractSprite p = none) := by
  have main : ∀ p : Pokemon, extractSprite p =
      firstPresent [candOfficial p, candHome p, candDream p, candDefault p] := by
    intro p
    rw [extractSprite_eq_cands]
    cases candOfficial p <;> cases candHome p <;> cases candDream p <;>
      cases candDefault p <;> rfl
  refine ⟨main, ?_, ?_, ?_⟩
  · intro p u1 u2 u3 u4 h1 h2 h3 h4
    rw [main p, h1]; rfl
  · intro p u2 u4 h1 h2 h3 h4
    rw [main p, h1, h2]; rfl
  · intro p h1 h2 h3 h4
    rw [main p, h1, h2, h3, h4]; rfl

/-- C6 witness: a concrete item carrying all four sprite URLs resolves to
the official-artwork URL. -/
theorem extractSprite_precedence_witness :
    extractSprite
      { id := 25, name := "pikachu", height := 4, weight := 60, order := 35
        base_experience := 112
        sprites :=
          { front_default := some "def.png", front_shiny := none
            other := some
              { dream_world := some ⟨some "dw.png"⟩
                home := some ⟨some "home.png", none⟩
                official_artwork := some ⟨some "official.png"⟩ } }
        types := [], abilities := [], stats := [], moves := []
        species := ⟨"pikachu", "u"⟩ } = some "official.png" :=
  extractSprite_precedence.2.1 _ "official.png" "home.png" "dw.png" "def.png"
    rfl rfl rfl rfl

instance : IsTotal PokemonTypeSlot typeSlotLE :=
  ⟨fun a b => Nat.le_total a.slot b.slot⟩

instance : IsTrans PokemonTypeSlot typeSlotLE :=
  ⟨fun _ _ _ hab hbc => Nat.le_trans hab hbc⟩

instance : IsTotal PokemonAbilitySlot abilitySlotLE :=
  ⟨fun a b => Nat.le_total a.slot b.slot⟩

instance : IsTrans PokemonAbilitySlot abilitySlotLE :=
  ⟨fun _ _ _ hab hbc => Nat.le_trans hab hbc⟩

/-- C8: `mapTypes` returns the type names of a slot list that is a
permutation of the input (duplicates preserved) and is sorted ascending by
slot index, for every input order; `mapAbilities` likewise returns
(name, hidden) pairs of a slot-ascending permutation of the input; and
`mapStats` maps the stat slots to (name, base value) pairs in source
order with no re-sorting. -/
theorem slot_mapping_order :
    (∀ types : List PokemonTypeSlot, ∃ sorted : List PokemonTypeSlot,
        sorted.Perm types ∧ sorted.Pairwise typeSlotLE ∧
        mapTypes types = sorted.map fun entry => entry.type.name) ∧
    (∀ abilities : List PokemonAbilitySlot, ∃ sorted : List PokemonAbilitySlot,
        sorted.Perm abilities ∧ sorted.Pairwise abilitySlotLE ∧
        mapAbilities abilities = sorted.map fun entry =>
          AbilityView.mk entry.ability.name entry.is_hidden) ∧
    (∀ stats : List PokemonStatSlot,
        mapStats stats = stats.map fun entry => StatView.mk entry.stat.name entry.base_stat) := by
  refine ⟨fun types => ⟨List.insertionSort typeSlotLE types, ?_, ?_, rfl⟩,
    fun abilities => ⟨List.insertionSort abilitySlotLE abilities, ?_, ?_, rfl⟩,
    fun stats => rfl⟩
  · exact List.perm_insertionSort typeSlotLE types
  · exact List.sorted_insertionSort typeSlotLE types
  · exact List.perm_insertionSort abilitySlotLE abilities
  · exact List.sorted_insertionSort abilitySlotLE abilities

theorem find?_append_of_forall_false {α : Type} (p : α → Bool) (l1 l2 : List α) (e : α)
    (h1 : ∀ x ∈ l1, p x = false) (he : p e = true) :
    List.find? p (l1 ++ e :: l2) = some e := by
  induction l1 with
  | nil => simp [List.find?, he]
  | cons a rest ih =>
    have ha : p a = false := h1 a (by simp)
    simp only [List.cons_append, List.find?, ha]
    exact ih fun x hx => h1 x (by simp [hx])

/-- Species record used as the concrete flavor-text example. -/
def exampleSpecies : PokemonSpecies :=
  { id := 1, name := "bulbasaur", color := none, habitat := none, genera := none
    flavor_text_entries :=
      [⟨"Texte", ⟨"fr", "u"⟩, ⟨"red", "u"⟩⟩,
        ⟨"Abc\x0cdef\n", ⟨"en", "u"⟩, ⟨"red", "u"⟩⟩]
    is_legendary := false, is_mythical := false, evolution_chain := none }

/-- C9: `extractEnglishFlavor` returns the text of the first flavor-text
entry whose language tag is "en", with every form-feed, newline and
carriage-return character replaced by a single space (each other character
unchanged), and returns absent when no English entry exists; on the
example entry text "Abc\x0cdef\n" it yields "Abc def ". -/
theorem extractEnglishFlavor_first_english :
    (∀ (species : PokemonSpecies) (pre post : List PokemonSpeciesFlavorText)
        (e : PokemonSpeciesFlavorText),
        species.flavor_text_entries = pre ++ e :: post →
        (∀ x ∈ pre, x.language.name ≠ "en") → e.language.name = "en" →
        extractEnglishFlavor species = some ⟨e.flavor_text.data.map sanitizeChar⟩) ∧
    (∀ species : PokemonSpecies,
        (∀ x ∈ species.flavor_text_entries, x.language.name ≠ "en") →
        extractEnglishFlavor species = none) ∧
    sanitizeChar '\x0c' = ' ' ∧ sanitizeChar '\n' = ' ' ∧ sanitizeChar '\x0d' = ' ' ∧
    (∀ c : Char, c ≠ '\x0c' → c ≠ '\n' → c ≠ '\x0d' → sanitizeChar c = c) ∧
    extractEnglishFlavor exampleSpecies = some "Abc def " := by
  refine ⟨?_, ?_, rfl, rfl, rfl, ?_, ?_⟩
  · intro species pre post e hsplit hpre hen
    have hfind : species.flavor_text_entries.find?
        (fun entry => entry.language.name = "en") = some e := by
      rw [hsplit]
      exact find?_append_of_forall_false _ pre post e
        (fun x hx => by simpa using hpre x hx) (by simpa using hen)
    simp [extractEnglishFlavor, hfind, sanitizeFlavorText]
  · intro species hnone
    have hfind : species.flavor_text_entries.find?
        (fun entry => entry.language.name = "en") = none := by
      rw [List.find?_eq_none]
      intro x hx
      simpa using hnone x hx
    simp [extractEnglishFlavor, hfind, sanitizeFlavorText]
  · intro c h1 h2 h3
    simp [sanitizeChar, h1, h2, h3]
  · decide

/-- C9 witness: the first-English-entry clause applied to the concrete
example species, whose first entry is French. -/
theorem extractEnglishFlavor_first_english_witness :
    extractEnglishFlavor exampleSpecies = some "Abc def " :=
  extractEnglishFlavor_first_english.1 exampleSpecies
    [⟨"Texte", ⟨"fr", "u"⟩, ⟨"red", "u"⟩⟩] []
    ⟨"Abc\x0cdef\n", ⟨"en", "u"⟩, ⟨"red", "u"⟩⟩
    rfl (by decide) rfl

/-- C4: whenever `getDetail` succeeds with a detail, afterwards both the
detail index and the summary index are populated at the detail's id and
the two entries are consistent: they agree on id, name, sprite and types
(Detail implies Summary). -/
theorem getDetail_implies_summary :
    ∀ (st : StoreState) (fetchItem : Except JsError Pokemon)
      (fetchSpecies : Except JsError PokemonSpecies) (d : PokemonDetail) (st2 : StoreState),
      getDetail st fetchItem fetchSpecies = .ok (d, st2) →
      mapGet st2.detailsById d.id = some d ∧
      ∃ s : PokemonSummary, mapGet st2.summariesById d.id = some s ∧
        s.id = d.id ∧ s.name = d.name ∧ s.sprite = d.sprite ∧ s.types = d.types := by
  intro st fetchItem fetchSpecies d st2 h
  match fetchItem, fetchSpecies with
  | .error e, _ => simp [getDetail] at h
  | .ok p, .error e => simp [getDetail] at h
  | .ok p, .ok sp =>
    simp only [getDetail, Except.ok.injEq, Prod.mk.injEq] at h
    obtain ⟨hd, hst⟩ := h
    subst hd
    subst hst
    exact ⟨mapGet_mapSet_self _ _ _,
      (mapToDetail p sp).toPokemonSummary, mapGet_mapSet_self _ _ _, rfl, rfl, rfl, rfl⟩

/-- Catalog item used as a concrete input for the store witnesses. -/
def examplePokemon : Pokemon :=
  { id := 25, name := "pikachu", height := 4, weight := 60, order := 35
    base_experience := 112
    sprites := { front_default := some "x.png", front_shiny := none, other := none }
    types := [⟨1, ⟨"electric", "u"⟩⟩]
    abilities := [⟨⟨"static", "u"⟩, false, 1⟩]
    stats := [⟨35, 0, ⟨"hp", "u"⟩⟩]
    moves := []
    species := ⟨"pikachu", "u"⟩ }

/-- The detail obtained from the concrete example item and species. -/
def exampleDetail : PokemonDetail := mapToDetail examplePokemon exampleSpecies

/-- The store state after `getDetail` succeeds on the example inputs from
the initial state. -/
def exampleDetailState : StoreState :=
  { initialStoreState with
      detailsById := mapSet initialStoreState.detailsById exampleDetail.id exampleDetail
      summariesById :=
        mapSet initialStoreState.summariesById exampleDetail.id exampleDetail.toPokemonSummary }

/-- C4 witness: the theorem applied to a concrete successful `getDetail`
call from the initial state. -/
theorem getDetail_implies_summary_witness :
    mapGet exampleDetailState.detailsById exampleDetail.id = some exampleDetail ∧
    ∃ s : PokemonSummary, mapGet exampleDetailState.summariesById exampleDetail.id = some s ∧
      s.id = exampleDetail.id ∧ s.name = exampleDetail.name ∧
      s.sprite = exampleDetail.sprite ∧ s.types = exampleDetail.types :=
  getDetail_implies_summary initialStoreState (.ok examplePokemon) (.ok exampleSpecies)
    exampleDetail exampleDetailState rfl

/-- C2 counterexample: the claim's "prior state is otherwise untouched" is
false — `loadList` records the requested parameters before the fetches
run, so a failing load still overwrites the previously recorded list-load
parameters. -/
theorem loadList_failure_counterexample :
    (let st0 : StoreState := { initialStoreState with listParams := ⟨5, 3⟩ };
     let fL : Nat → Nat → Except JsError PokemonListResponse :=
       fun _ _ => .error (.jsError "Network Error");
     let fI : String → Except JsError Pokemon := fun _ => .error (.jsError "Network Error");
     st0.list = [] ∧
     loadListOutcome fL fI 1000 0 = .error (.jsError "Network Error") ∧
     (loadList st0 1000 0 fL fI).state.listParams ≠ st0.listParams) :=
  ⟨rfl, rfl, by decide⟩

/-- C2 (amended): if the index fetch or any per-item summary fetch fails,
the completed `loadList` leaves the list, total count, summary index and
detail index at their prior values — no partially-populated list is
observable — sets the list-load error slot to the human-readable message
extracted from the failure, clears the loading flag, and (the amendment)
records the requested limit and offset as the last list-load parameters;
moreover the loading flag ends false on the success path as well. -/
theorem loadList_failure_atomic :
    (∀ (st : StoreState) (limit offset : Nat)
        (fetchList : Nat → Nat → Except JsError PokemonListResponse)
        (fetchItem : String → Except JsError Pokemon) (e : JsError),
        st.list = [] →
        loadListOutcome fetchList fetchItem limit offset = .error e →
        (loadList st limit offset fetchList fetchItem).state =
          { st with listError := some (extractErrorMessage e)
                    isListLoading := false
                    listParams := ⟨limit, offset⟩ }) ∧
    (∀ (st : StoreState) (limit offset : Nat)
        (fetchList : Nat → Nat → Except JsError PokemonListResponse)
        (fetchItem : String → Except JsError Pokemon),
        st.list = [] →
        (loadList st limit offset fetchList fetchItem).state.isListLoading = false) := by
  constructor
  · intro st limit offset fetchList fetchItem e hempty houtcome
    simp [loadList, hempty, houtcome]
  · intro st limit offset fetchList fetchItem hempty
    simp only [loadList, hempty, List.length_nil, gt_iff_lt, Nat.lt_irrefl, if_false]
    cases houtcome : loadListOutcome fetchList fetchItem limit offset <;> simp [houtcome]

/-- C2 witness: a concrete failing load from the initial state ends with
the error message recorded, the loading flag down, and the data fields at
their prior (empty) values. -/
theorem loadList_failure_atomic_witness :
    (loadList initialStoreState 1000 0 (fun _ _ => .error (.jsString "boom"))
        (fun _ => .error .otherValue)).state =
      { initialStoreState with
          listError := some "boom"
          isListLoading := false
          listParams := ⟨1000, 0⟩ } :=
  loadList_failure_atomic.1 initialStoreState 1000 0 _ _ (.jsString "boom") rfl rfl

/-- C5 counterexample: the claim's consequence "calling loadList twice in
sequence starting from an empty list issues network calls only on the
first call" is false when the first call fails: the list stays empty, so
the second call issues transport requests again. -/
theorem loadList_second_call_counterexample :
    (let fL : Nat → Nat → Except JsError PokemonListResponse := fun _ _ => .error .otherValue;
     let fI : String → Except JsError Pokemon := fun _ => .error .otherValue;
     let r1 := loadList initialStoreState 1000 0 fL fI;
     let r2 := loadList r1.state 1000 0 fL fI;
     initialStoreState.list = [] ∧ r1.requests ≠ [] ∧ r2.requests ≠ []) :=
  ⟨rfl, by decide, by decide⟩

/-- C5 (amended): whenever the store's current list is non-empty, a call
to `loadList` returns immediately, performs no transport requests, and
leaves all store state unchanged; hence when a first call from an empty
list leaves the list non-empty (a successful load with at least one
result), a second call is a no-op that issues no requests and returns the
existing state. -/
theorem loadList_guard_noop :
    (∀ (st : StoreState) (limit offset : Nat)
        (fetchList : Nat → Nat → Except JsError PokemonListResponse)
        (fetchItem : String → Except JsError Pokemon),
        st.list ≠ [] →
        loadList st limit offset fetchList fetchItem = ⟨st, []⟩) ∧
    (∀ (st : StoreState) (l1 o1 l2 o2 : Nat)
        (fetchList fetchList2 : Nat → Nat → Except JsError PokemonListResponse)
        (fetchItem fetchItem2 : String → Except JsError Pokemon),
        st.list = [] →
        (loadList st l1 o1 fetchList fetchItem).state.list ≠ [] →
        loadList (loadList st l1 o1 fetchList fetchItem).state l2 o2 fetchList2 fetchItem2 =
          ⟨(loadList st l1 o1 fetchList fetchItem).state, []⟩) := by
  have guard : ∀ (st : StoreState) (limit offset : Nat)
      (fetchList : Nat → Nat → Except JsError PokemonListResponse)
      (fetchItem : String → Except JsError Pokemon),
      st.list ≠ [] → loadList st limit offset fetchList fetchItem = ⟨st, []⟩ := by
    intro st limit offset fetchList fetchItem h
    have hpos : st.list.length > 0 := List.length_pos.mpr h
    simp [loadList, hpos]
  exact ⟨guard, fun st l1 o1 l2 o2 fL fL2 fI fI2 _ h2 => guard _ l2 o2 fL2 fI2 h2⟩

/-- C5 witness: with a non-empty list the call returns the state unchanged
and issues no requests. -/
theorem loadList_guard_noop_witness :
    loadList { initialStoreState with list := [⟨25, "pikachu", none, []⟩] } 1000 0
        (fun _ _ => .error .otherValue) (fun _ => .error .otherValue) =
      ⟨{ initialStoreState with list := [⟨25, "pikachu", none, []⟩] }, []⟩ :=
  loadList_guard_noop.1 _ 1000 0 _ _ (by decide)

/-- C10: the TypeScript defaults make an argument-less `loadList()` request
the index with limit 1000 and offset 0 and record exactly those values as
the last list-load parameters, and the store's initial `listParams` state
is also limit 1000, offset 0. -/
theorem loadList_default_params :
    initialStoreState.listParams = ⟨1000, 0⟩ ∧
    (∀ (st : StoreState)
        (fetchList : Nat → Nat → Except JsError PokemonListResponse)
        (fetchItem : String → Except JsError Pokemon),
        st.list = [] →
        ∃ rest, (loadListNoArgs st fetchList fetchItem).requests = .indexReq 1000 0 :: rest) ∧
    (∀ (st : StoreState)
        (fetchList : Nat → Nat → Except JsError PokemonListResponse)
        (fetchItem : String → Except JsError Pokemon),
        st.list = [] →
        (loadListNoArgs st fetchList fetchItem).state.listParams = ⟨1000, 0⟩) := by
  refine ⟨rfl, ?_, ?_⟩ <;> intro st fetchList fetchItem hempty <;>
    simp only [loadListNoArgs, loadList, hempty, List.length_nil, gt_iff_lt,
      Nat.lt_irrefl, if_false]
  · cases houtcome : loadListOutcome fetchList fetchItem 1000 0 <;>
      cases hf : fetchList 1000 0 <;> simp [houtcome, hf]
  · cases houtcome : loadListOutcome fetchList fetchItem 1000 0 <;> simp [houtcome]

/-- C10 witness: the theorem applied to the initial state and a concrete
oracle. -/
theorem loadList_default_params_witness :
    (loadListNoArgs initialStoreState (fun _ _ => .error .otherValue)
        (fun _ => .error .otherValue)).state.listParams = ⟨1000, 0⟩ :=
  loadList_default_params.2.2 initialStoreState _ _ rfl
